import Mathlib

/-!
Verification of the JupLimits bundle-construction and submission logic.

The TypeScript sources are shallowly embedded: each API route handler becomes a
pure Lean function of an explicit environment record that supplies the results
of all external effects (file system, process environment, relay queries,
ledger queries, randomness, signature verification).  Every handler returns,
besides its HTTP response, the bundle it handed to the relay (if any) and the
ordered list of network calls it performed, so that "fails before any network
call" and "no bundle is submitted" are directly statable.

JavaScript's number arithmetic is embedded exactly: the only floating-point
computation that matters (`Math.floor(makingAmount * 0.01)`) is modelled as
IEEE-754 double-precision arithmetic over ℚ, with the double nearest 0.01
written out as the exact rational 5764607523034235 / 2^59.
-/

namespace JupLimits

/-! ## JavaScript primitives -/

/-- Truthiness of an optional string: `undefined` and the empty string are
falsy, every other string is truthy. -/
def isTruthyStr : Option String → Bool
  | none => false
  | some s => s ≠ ""

/-- JavaScript `a || b` on optional strings: `a` is kept when truthy,
otherwise `b` is returned (which may itself be `undefined` or falsy). -/
def jsOr (a b : Option String) : Option String :=
  if isTruthyStr a then a else b

/-- JavaScript `a || d` where `d` is a non-empty string literal default. -/
def jsOrStrD (a : Option String) (d : String) : String :=
  match a with
  | none => d
  | some s => if s = "" then d else s

/-- JavaScript `a || d` on numbers, where `a` may be `undefined` and the
number `0` is falsy. -/
def jsOrNat (a : Option Nat) (d : Nat) : Nat :=
  match a with
  | none => d
  | some n => if n = 0 then d else n

/-- Whitespace recognizer for `String.prototype.trim`. -/
def isJsSpace (c : Char) : Bool :=
  c = ' ' ∨ c = '\t' ∨ c = '\r' ∨ c = '\n'

/-- Trim leading and trailing whitespace from a character list. -/
def trimChars (l : List Char) : List Char :=
  ((l.dropWhile isJsSpace).reverse.dropWhile isJsSpace).reverse

/-- `String.prototype.split(sep)` with a one-character separator, on
character lists; always returns at least one group. -/
def splitOnChar (sep : Char) : List Char → List (List Char)
  | [] => [[]]
  | c :: rest =>
    if c = sep then
      [] :: splitOnChar sep rest
    else
      match splitOnChar sep rest with
      | [] => [[c]]
      | g :: gs => (c :: g) :: gs

/-- `Array.prototype.join(sep)` with a one-character separator. -/
def joinWithChar (sep : Char) : List (List Char) → List Char
  | [] => []
  | [g] => g
  | g :: gs => g ++ sep :: joinWithChar sep gs

/-- Accumulate decimal digits into a natural number. -/
def digitsToNat (acc : Nat) : List Char → Nat
  | [] => acc
  | c :: rest => digitsToNat (acc * 10 + (c.toNat - '0'.toNat)) rest

/-- JavaScript `parseInt` restricted to the decimal-digit strings that occur
here (the configuration values and the literal default `"5"`): leading
whitespace is skipped and the longest leading digit run is parsed; a string
with no leading digit yields `NaN`, modelled as `none`. -/
def parseIntJS (s : String) : Option Nat :=
  let t := trimChars s.data
  let ds := t.takeWhile Char.isDigit
  if ds.isEmpty then none else some (digitsToNat 0 ds)

/-! ## The manual `.env` parser

Each handler re-reads `.env` and parses it with
`line.trim().split('=')`, keeping a pair only when the key is non-empty and at
least one `=` occurred; later assignments to the same key overwrite earlier
ones, which a right-to-left lookup reproduces. -/

/-- Parse one line of the `.env` file into an optional key/value pair. -/
def parseEnvLine (line : List Char) : Option (String × String) :=
  match splitOnChar '=' (trimChars line) with
  | [] => none
  | key :: valueParts =>
    if key ≠ [] ∧ valueParts.length > 0 then
      some (String.mk key, String.mk (joinWithChar '=' valueParts))
    else
      none

/-- Parse the whole `.env` file content; `none` models a failed
`readFileSync`, after which the handler continues with an empty object. -/
def parseEnvFile (content : Option String) : List (String × String) :=
  match content with
  | none => []
  | some c => (splitOnChar '\n' c.data).filterMap parseEnvLine

/-- Property lookup on the parsed object: the last assignment wins. -/
def lookupEnvObj (kvs : List (String × String)) (key : String) : Option String :=
  (kvs.reverse.find? (fun p => p.1 = key)).map Prod.snd

/-- `jitoEnv.KEY || process.env.KEY`: the file value when truthy, otherwise
the process environment value. -/
def resolvedConfigValue (fileContent : Option String)
    (procEnv : String → Option String) (key : String) : Option String :=
  jsOr (lookupEnvObj (parseEnvFile fileContent) key) (procEnv key)

/-! ## Double-precision fee arithmetic

`submit-jito-bundle.ts` computes `Math.floor(makingAmountUnits * 0.01)` with
IEEE-754 binary64 arithmetic.  The double nearest to 0.01 is exactly
`5764607523034235 / 2^59`.  A finite positive value `x` lies in the binade
`[2^e, 2^(e+1))` with `e = Int.log 2 x`, where the representable doubles are
exactly the multiples of `2^(e-52)` (the endpoint `2^(e+1)` is also on that
grid), so multiplying two exact doubles and rounding to nearest is rounding
the exact product to that grid.  `round` here resolves exact ties upward
while IEEE-754 resolves them to even; either choice stays within half an ulp
of the exact product and the two candidates never straddle an integer in any
statement proved below, so every stated value agrees with the JavaScript
result. -/

/-- The exact value of the IEEE-754 double nearest to `0.01`. -/
def fp01 : ℚ := 5764607523034235 / 2 ^ 59

/-- Round a non-negative exact product to the nearest representable double
(ties upward); all quantities in this development are far inside the normal,
non-overflowing range. -/
def roundDouble (x : ℚ) : ℚ :=
  if 0 < x then
    (2 : ℚ) ^ (Int.log 2 x - 52) * round (x / (2 : ℚ) ^ (Int.log 2 x - 52))
  else 0

/-- `Math.floor(n * 0.01)` for a non-negative integer-valued double `n`. -/
def jsFloorMul001 (n : ℕ) : ℕ := (⌊roundDouble ((n : ℚ) * fp01)⌋).toNat

/-- `Math.floor(a / 1000)` for a non-negative integer-valued double `a`
(1000 is an exact double, so the division rounds the exact quotient once). -/
def jsFloorDiv1000 (a : ℕ) : ℕ := (⌊roundDouble ((a : ℚ) / 1000)⌋).toNat

/-! ## Data model -/

/-- The service signing keypair, identified by its public key; signing is
modelled as an opaque deterministic function of signer and message below. -/
structure Keypair where
  publicKey : String
deriving Repr, DecidableEq

/-- The two instruction shapes the handlers build: a native `SystemProgram`
transfer and an SPL-token transfer between associated token accounts. -/
inductive Instruction where
  | systemTransfer (fromPubkey toPubkey : String) (lamports : Nat)
  | splTransfer (source destination owner : String) (amount : Nat)
deriving Repr, DecidableEq

/-- A versioned transaction: payer, the recent blockhash embedded in its
message, its instructions, and its signature list. -/
structure VersionedTransaction where
  payerKey : String
  recentBlockhash : String
  instructions : List Instruction
  signatures : List String
deriving Repr, DecidableEq

/-- Opaque signature of the service key over a transaction message,
determined by the signer and the message's recent blockhash. -/
def sigOf (kp : Keypair) (recentBlockhash : String) : String :=
  kp.publicKey ++ "#" ++ recentBlockhash

/-- `tx.sign([kp])`: fill the single signature slot of a server-built
transaction. -/
def signTx (kp : Keypair) (tx : VersionedTransaction) : VersionedTransaction :=
  { tx with signatures := [sigOf kp tx.recentBlockhash] }

/-- Build and sign a one-instruction transaction paid by the service key,
exactly the `new VersionedTransaction(new TransactionMessage({...})
.compileToV0Message()); tx.sign([serverKeypair])` pattern. -/
def mkServerTx (kp : Keypair) (recentBlockhash : String)
    (ix : Instruction) : VersionedTransaction :=
  signTx kp { payerKey := kp.publicKey, recentBlockhash := recentBlockhash,
              instructions := [ix], signatures := [] }

/-- `bs58.encode` of a raw signature, modelled as an injective tagging. -/
def bs58encode (sig : String) : String := "b58:" ++ sig

/-- A Jito bundle: the ordered transactions and the configured
transaction-count limit (`none` models `NaN` from an unparsable limit). -/
structure Bundle where
  txs : List VersionedTransaction
  limit : Option Nat
deriving Repr, DecidableEq

/-- The network calls a handler can perform, in the order it performs them;
reading `.env` and deriving associated token addresses are local. -/
inductive NetworkCall where
  | subscribeBundleResults
  | getTipAccounts
  | getLatestBlockhash
  | sendBundle
  | jupiterCreateOrder
  | sendTransaction
  | confirmTransaction
deriving Repr, DecidableEq

/-- The JSON body of a handler response together with its HTTP status. -/
structure ApiResponse where
  status : Nat
  success : Bool
  bundleId : Option String := none
  signature : Option String := none
  signatures : Option (List String) := none
  orderId : Option String := none
  error : Option String := none
deriving Repr, DecidableEq

/-- What one request did: the response sent, the bundle handed to
`sendBundle` (if that call was reached), and the network calls made. -/
structure Outcome where
  response : ApiResponse
  submitted : Option Bundle := none
  calls : List NetworkCall := []
deriving Repr, DecidableEq

/-- Environment of one request to a bundle-submission route: results of all
external effects, fixed per request. -/
structure ServerEnv where
  /-- `.env` file content, `none` when `readFileSync` throws. -/
  envFileContent : Option String
  /-- `process.env`. -/
  procEnv : String → Option String
  /-- `JSON.parse` of the configured key material followed by
  `Keypair.fromSecretKey`; `none` when either throws. -/
  parseKeypair : String → Option Keypair
  /-- Result of `searcherClient.getTipAccounts()`. -/
  tipAccountsResult : Except String (List String)
  /-- `Math.floor(Math.random() * accounts.length)`; in JavaScript this lies
  in `[0, accounts.length)` whenever the list is non-empty, which theorems
  assume where they need it. -/
  tipIndex : Nat
  /-- `VersionedTransaction.deserialize` of a base64 payload; `none` when it
  throws. -/
  deserialize : String → Option VersionedTransaction
  /-- `connection.getLatestBlockhash()`, fetched once per request. -/
  blockhash : String
  /-- `getAssociatedTokenAddress mint owner`; `none` models any failure
  inside the SPL construction `try` block (including the dynamic import). -/
  splAta : String → String → Option String
  /-- `searcherClient.sendBundle`: relay-issued bundle UUID or error. -/
  sendBundleResult : Except String String

/-- The native-SOL mint the creation path compares against. -/
def SOL_MINT : String := "So11111111111111111111111111111111111111112"

/-- The fixed fee-collection address. -/
def feeWalletAddress : String := "FeegNqsGa7ppvuLRLj5xvqEu11cC1tXpWmwqdoqsMXnN"

/-- The fixed tip, 1000 lamports. -/
def tipAmount : Nat := 1000

/-- The default making amount substituted for a falsy `makingAmount`. -/
def defaultMakingAmount : Nat := 50000000

/-- The configuration-missing message shared by the two bundle routes. -/
def bundleConfigErrorMsg : String :=
  "Server configuration missing. Please check BLOCK_ENGINE_URL, AUTH_KEYPAIR_PATH and RPC_URL in .env"

/-- The malformed-credential message shared by all three routes. -/
def keypairErrorMsg : String :=
  "Invalid AUTH_KEYPAIR_PATH format. Must be a valid JSON array of numbers."

/-- Messages of exceptions whose text the handlers do not construct
themselves (deserialization and similar library throws) reach the caller via
the catch-all `error.message || 'Internal server error'`; this model reports
the default. -/
def internalErrorMsg : String := "Internal server error"

/-- `getRandomTipAccountAddress`: surface a relay error, otherwise index the
account list; on an empty list the JavaScript index is `0`, the element is
`undefined`, and the `PublicKey` constructor throws a `TypeError` while
reading the `_bn` property of its `undefined` argument. -/
def getRandomTipAccountAddress (accountResult : Except String (List String))
    (tipIndex : Nat) : Except String String :=
  match accountResult with
  | .error msg => .error ("Failed to get tip accounts: " ++ msg)
  | .ok accounts =>
    match accounts.get? tipIndex with
    | none => .error "Cannot read properties of undefined (reading '_bn')"
    | some a => .ok a

/-! ## `src/pages/api/submit-jito-bundle.ts` (order-creation path) -/

namespace SubmitJitoBundle

/-- The request body of the creation route; optional fields may be absent. -/
structure Request where
  signedTransaction : String
  orderId : String
  makingAmount : Option Nat := none
  inputMint : Option String := none
deriving Repr, DecidableEq

/-- `jitoEnv.BLOCK_ENGINE_URL || process.env.BLOCK_ENGINE_URL`. -/
def blockEngineUrl (env : ServerEnv) : Option String :=
  resolvedConfigValue env.envFileContent env.procEnv "BLOCK_ENGINE_URL"

/-- `jitoEnv.AUTH_KEYPAIR_PATH || process.env.AUTH_KEYPAIR_PATH`. -/
def authKeypairPath (env : ServerEnv) : Option String :=
  resolvedConfigValue env.envFileContent env.procEnv "AUTH_KEYPAIR_PATH"

/-- `jitoEnv.RPC_URL || process.env.RPC_URL`. -/
def rpcUrl (env : ServerEnv) : Option String :=
  resolvedConfigValue env.envFileContent env.procEnv "RPC_URL"

/-- `parseInt(jitoEnv.BUNDLE_TRANSACTION_LIMIT ||
process.env.BUNDLE_TRANSACTION_LIMIT || "5")`. -/
def bundleTransactionLimit (env : ServerEnv) : Option Nat :=
  parseIntJS (jsOrStrD
    (resolvedConfigValue env.envFileContent env.procEnv "BUNDLE_TRANSACTION_LIMIT") "5")

/-- The guard `!blockEngineUrl || !authKeypairPath || !rpcUrl`, negated. -/
def configOk (env : ServerEnv) : Bool :=
  isTruthyStr (blockEngineUrl env) && isTruthyStr (authKeypairPath env)
    && isTruthyStr (rpcUrl env)

/-- Parsing the authority keypair from the resolved configuration string. -/
def serverKeypair (env : ServerEnv) : Option Keypair :=
  env.parseKeypair ((authKeypairPath env).getD "")

/-- `inputMint || 'So111...112'`. -/
def currentInputMint (req : Request) : String :=
  jsOrStrD req.inputMint SOL_MINT

/-- `makingAmount || 50000000`. -/
def makingAmountUnits (req : Request) : Nat :=
  jsOrNat req.makingAmount defaultMakingAmount

/-- `Math.floor(makingAmountUnits * 0.01)` in double precision. -/
def feeAmountUnits (req : Request) : Nat :=
  jsFloorMul001 (makingAmountUnits req)

/-- The fee transaction: a native transfer of the fee when the input mint is
SOL; otherwise an SPL-token transfer between associated token accounts, and
when that construction fails for any reason, a native transfer of
`Math.floor(feeAmountUnits / 1000)` lamports computed in double precision. -/
def feeTx (env : ServerEnv) (req : Request) (kp : Keypair) : VersionedTransaction :=
  if currentInputMint req = SOL_MINT then
    mkServerTx kp env.blockhash
      (.systemTransfer kp.publicKey feeWalletAddress (feeAmountUnits req))
  else
    match env.splAta (currentInputMint req) kp.publicKey,
          env.splAta (currentInputMint req) feeWalletAddress with
    | some serverTokenAccount, some feeWalletTokenAccount =>
      mkServerTx kp env.blockhash
        (.splTransfer serverTokenAccount feeWalletTokenAccount kp.publicKey
          (feeAmountUnits req))
    | _, _ =>
      mkServerTx kp env.blockhash
        (.systemTransfer kp.publicKey feeWalletAddress
          (jsFloorDiv1000 (feeAmountUnits req)))

/-- The tip transaction: 1000 lamports from the service key to the resolved
tip account. -/
def tipTx (env : ServerEnv) (kp : Keypair) (tipAccount : String) : VersionedTransaction :=
  mkServerTx kp env.blockhash
    (.systemTransfer kp.publicKey tipAccount tipAmount)

/-- The creation-path route handler. -/
def handler (env : ServerEnv) (method : String) (req : Request) : Outcome :=
  if method ≠ "POST" then
    { response := { status := 405, success := false, error := some "Method not allowed" } }
  else if ¬ configOk env then
    { response := { status := 500, success := false, error := some bundleConfigErrorMsg } }
  else
    match serverKeypair env with
    | none =>
      { response := { status := 500, success := false, error := some keypairErrorMsg } }
    | some kp =>
      match getRandomTipAccountAddress env.tipAccountsResult env.tipIndex with
      | .error msg =>
        { response := { status := 500, success := false, error := some msg },
          calls := [.subscribeBundleResults, .getTipAccounts] }
      | .ok tipAccount =>
        match env.deserialize req.signedTransaction with
        | none =>
          { response := { status := 500, success := false, error := some internalErrorMsg },
            calls := [.subscribeBundleResults, .getTipAccounts] }
        | some userSignedTx =>
          match userSignedTx.signatures.head? with
          | none =>
            { response := { status := 500, success := false, error := some internalErrorMsg },
              calls := [.subscribeBundleResults, .getTipAccounts] }
          | some userSig =>
            let jitoBundle : Bundle :=
              { txs := [userSignedTx, feeTx env req kp, tipTx env kp tipAccount],
                limit := bundleTransactionLimit env }
            match env.sendBundleResult with
            | .error msg =>
              { response :=
                  { status := 500, success := false,
                    error := some ("Bundle submission failed: " ++ msg) },
                submitted := some jitoBundle,
                calls := [.subscribeBundleResults, .getTipAccounts,
                  .getLatestBlockhash, .sendBundle] }
            | .ok bundleUUID =>
              { response :=
                  { status := 200, success := true,
                    bundleId := some bundleUUID,
                    signature := some (bs58encode userSig) },
                submitted := some jitoBundle,
                calls := [.subscribeBundleResults, .getTipAccounts,
                  .getLatestBlockhash, .sendBundle] }

end SubmitJitoBundle

/-! ## `src/pages/api/submit-cancel-bundle.ts` (order-cancellation path) -/

namespace SubmitCancelBundle

/-- The request body of the cancellation route. -/
structure Request where
  signedTransactions : List String
  orderIds : List String
deriving Repr, DecidableEq

/-- The `forEach` deserialization loop: deserialize every payload in order;
the loop also reads `signatures[0]` of each transaction for logging, so a
missing signature throws exactly like a malformed payload. -/
def deserializeAll (deserialize : String → Option VersionedTransaction) :
    List String → Option (List VersionedTransaction)
  | [] => some []
  | payload :: rest =>
    match deserialize payload with
    | none => none
    | some tx =>
      match tx.signatures.head? with
      | none => none
      | some _ => (deserializeAll deserialize rest).map (tx :: ·)

/-- The tip transaction of the cancellation path, identical in shape to the
creation path's. -/
def tipTx (env : ServerEnv) (kp : Keypair) (tipAccount : String) : VersionedTransaction :=
  mkServerTx kp env.blockhash
    (.systemTransfer kp.publicKey tipAccount tipAmount)

/-- The cancellation-path route handler. -/
def handler (env : ServerEnv) (method : String) (req : Request) : Outcome :=
  if method ≠ "POST" then
    { response := { status := 405, success := false, error := some "Method not allowed" } }
  else if ¬ SubmitJitoBundle.configOk env then
    { response := { status := 500, success := false, error := some bundleConfigErrorMsg } }
  else
    match SubmitJitoBundle.serverKeypair env with
    | none =>
      { response := { status := 500, success := false, error := some keypairErrorMsg } }
    | some kp =>
      match getRandomTipAccountAddress env.tipAccountsResult env.tipIndex with
      | .error msg =>
        { response := { status := 500, success := false, error := some msg },
          calls := [.subscribeBundleResults, .getTipAccounts] }
      | .ok tipAccount =>
        match deserializeAll env.deserialize req.signedTransactions with
        | none =>
          { response := { status := 500, success := false, error := some internalErrorMsg },
            calls := [.subscribeBundleResults, .getTipAccounts] }
        | some userTransactions =>
          let bundleTransactions := userTransactions ++ [tipTx env kp tipAccount]
          let jitoBundle : Bundle :=
            { txs := bundleTransactions,
              limit := SubmitJitoBundle.bundleTransactionLimit env }
          match env.sendBundleResult with
          | .error msg =>
            { response :=
                { status := 500, success := false,
                  error := some ("Cancel bundle submission failed: " ++ msg) },
              submitted := some jitoBundle,
              calls := [.subscribeBundleResults, .getTipAccounts,
                .getLatestBlockhash, .sendBundle] }
          | .ok bundleUUID =>
            { response :=
                { status := 200, success := true,
                  bundleId := some bundleUUID,
                  signatures := some (userTransactions.map
                    (fun tx => bs58encode (tx.signatures.headD ""))) },
              submitted := some jitoBundle,
              calls := [.subscribeBundleResults, .getTipAccounts,
                .getLatestBlockhash, .sendBundle] }

end SubmitCancelBundle

/-! ## `src/pages/api/create-order-jito.ts` -/

namespace CreateOrderJito

/-- The request body of the order-creation proxy route. -/
structure Request where
  inputMint : String
  outputMint : String
  maker : String
  makingAmount : String
  takingAmount : String
deriving Repr, DecidableEq

/-- Body of a successful Jupiter `createOrder` response. -/
structure JupiterResult where
  order : String
  tx : String
deriving Repr, DecidableEq

/-- Environment of one request to the order-creation proxy route. -/
structure Env where
  envFileContent : Option String
  procEnv : String → Option String
  parseKeypair : String → Option Keypair
  /-- The Jupiter `createOrder` call: HTTP status and body text on failure. -/
  jupiterCreateOrder : Except (Nat × String) JupiterResult
  deserialize : String → Option VersionedTransaction
  blockhash : String
  /-- `connection.sendTransaction`: the signature, or a thrown error. -/
  sendTransactionResult : Except String String
  /-- `confirmation.value.err` after `confirmTransaction`. -/
  confirmErr : Option String

/-- `jitoEnv.AUTH_KEYPAIR_PATH || process.env.AUTH_KEYPAIR_PATH`. -/
def authKeypairPath (env : Env) : Option String :=
  resolvedConfigValue env.envFileContent env.procEnv "AUTH_KEYPAIR_PATH"

/-- `jitoEnv.RPC_URL || process.env.RPC_URL`. -/
def rpcUrl (env : Env) : Option String :=
  resolvedConfigValue env.envFileContent env.procEnv "RPC_URL"

/-- This route requires only the signing key and the ledger RPC URL. -/
def configOk (env : Env) : Bool :=
  isTruthyStr (authKeypairPath env) && isTruthyStr (rpcUrl env)

/-- The missing-configuration message of this route. -/
def configErrorMsg : String :=
  "Server configuration missing. Please check AUTH_KEYPAIR_PATH and RPC_URL in .env"

/-- The order-creation proxy route handler. -/
def handler (env : Env) (method : String) (_req : Request) : Outcome :=
  if method ≠ "POST" then
    { response := { status := 405, success := false, error := some "Method not allowed" } }
  else if ¬ configOk env then
    { response := { status := 500, success := false, error := some configErrorMsg } }
  else
    match env.parseKeypair ((authKeypairPath env).getD "") with
    | none =>
      { response := { status := 500, success := false, error := some keypairErrorMsg } }
    | some _owner =>
      match env.jupiterCreateOrder with
      | .error (st, text) =>
        { response :=
            { status := 500, success := false,
              error := some ("Jupiter API error: " ++ toString st ++ " " ++ text) },
          calls := [.jupiterCreateOrder] }
      | .ok jupiterResult =>
        match env.deserialize jupiterResult.tx with
        | none =>
          { response := { status := 500, success := false, error := some internalErrorMsg },
            calls := [.jupiterCreateOrder] }
        | some _versionedTx =>
          match env.sendTransactionResult with
          | .error msg =>
            { response :=
                { status := 500, success := false,
                  error := some ("Transaction failed: " ++ msg) },
              calls := [.jupiterCreateOrder, .getLatestBlockhash, .sendTransaction] }
          | .ok _signature =>
            match env.confirmErr with
            | some e =>
              { response :=
                  { status := 500, success := false,
                    error := some ("Transaction failed: " ++ ("Transaction failed: " ++ e)) },
                calls := [.jupiterCreateOrder, .getLatestBlockhash,
                  .sendTransaction, .confirmTransaction] }
            | none =>
              { response :=
                  { status := 200, success := true,
                    orderId := some jupiterResult.order },
                calls := [.jupiterCreateOrder, .getLatestBlockhash,
                  .sendTransaction, .confirmTransaction] }

end CreateOrderJito

/-! ## `src/components/OrderManagement.tsx`: the cancellation polling loop -/

namespace OrderManagement

/-- One `checkOrders()` call: `true` exactly when the listing fetch succeeded
and none of the order ids being cancelled still appears; a failed fetch or a
thrown error yields `false`. -/
def checkOrders (orderIdsToCheck : List String)
    (listing : Option (List String)) : Bool :=
  match listing with
  | none => false
  | some currentOrderIds =>
    ¬ orderIdsToCheck.any (fun orderId => currentOrderIds.contains orderId)

/-- What a run of the polling loop did: how many `checkOrders` calls it made,
whether the `onOrderCancelled` callback fired, and whether it reported
completion (cleared the in-progress state) — which it always does. -/
structure PollOutcome where
  checksPerformed : Nat
  confirmedCancelled : Bool
  completed : Bool
deriving Repr, DecidableEq

/-- The bound `maxAttempts = 30`. -/
def maxAttempts : Nat := 30

/-- The `while (attempts < maxAttempts)` loop, with the remaining attempt
budget as fuel and the attempt counter threading the index into the sequence
of listing responses. -/
def pollAux (orderIds : List String) (listings : Nat → Option (List String)) :
    Nat → Nat → PollOutcome
  | 0, attempts =>
    { checksPerformed := attempts, confirmedCancelled := false, completed := true }
  | fuel + 1, attempts =>
    if checkOrders orderIds (listings attempts) then
      { checksPerformed := attempts + 1, confirmedCancelled := true, completed := true }
    else
      pollAux orderIds listings fuel (attempts + 1)

/-- `pollForOrderCancellation`: poll the listing until the cancelled ids
disappear or the attempt bound is exhausted. -/
def pollForOrderCancellation (orderIds : List String)
    (listings : Nat → Option (List String)) : PollOutcome :=
  pollAux orderIds listings maxAttempts 0

end OrderManagement

/-! ## A concrete healthy environment, used to instantiate theorems -/

/-- A request environment in which every external collaborator behaves:
configuration is present in the process environment, the relay reports two
tip accounts and picks the second, deserialization succeeds on a singly
signed caller transaction, and the relay accepts the bundle. -/
def envOkBase : ServerEnv where
  envFileContent := none
  procEnv := fun k =>
    if k = "BLOCK_ENGINE_URL" then some "https://relay.example" else
    if k = "AUTH_KEYPAIR_PATH" then some "[1,2,3]" else
    if k = "RPC_URL" then some "https://rpc.example" else none
  parseKeypair := fun _ => some { publicKey := "SRV" }
  tipAccountsResult := .ok ["TIP1", "TIP2"]
  tipIndex := 1
  deserialize := fun _ =>
    some { payerKey := "USR", recentBlockhash := "UBH",
           instructions := [], signatures := ["usersig"] }
  blockhash := "BH"
  splAta := fun _ _ => none
  sendBundleResult := .ok "uuid-1"

/-! ## Arithmetic facts about the double-precision fee computation -/

theorem fp01_pos : 0 < fp01 := by norm_num [fp01]

/-- For every making amount in the contiguous exactly-representable integer
range of a double (`n ≤ 2^53`), the JavaScript `Math.floor(n * 0.01)`
coincides with the exact `⌊n / 100⌋`. -/
theorem jsFloorMul001_eq_div (n : ℕ) (hn : n ≤ 2 ^ 53) :
    jsFloorMul001 n = n / 100 := by
  rcases Nat.eq_zero_or_pos n with rfl | hn0
  · simp [jsFloorMul001, roundDouble]
  set x : ℚ := (n : ℚ) * fp01 with hxdef
  have hx_pos : 0 < x := by
    apply mul_pos (by exact_mod_cast hn0)
    exact fp01_pos
  set e : ℤ := Int.log 2 x with hedef
  set u : ℚ := (2 : ℚ) ^ (e - 52) with hudef
  have hu_pos : 0 < u := zpow_pos (by norm_num) _
  have hRD : roundDouble x = u * round (x / u) := by
    rw [roundDouble, if_pos hx_pos]
  set k : ℕ := n / 100 with hkdef
  set r : ℕ := n % 100 with hrdef
  have hnkr : 100 * k + r = n := Nat.div_add_mod n 100
  have hx_eq : x = (k : ℚ) + (12 * k + r * 5764607523034235) / 2 ^ 59 := by
    rw [hxdef, fp01]
    have hcast : (n : ℚ) = 100 * (k : ℚ) + (r : ℚ) := by exact_mod_cast hnkr.symm
    rw [hcast]
    ring
  have hk_le : k ≤ 90071992547409 := by
    calc k ≤ 2 ^ 53 / 100 := Nat.div_le_div_right hn
    _ = 90071992547409 := by norm_num
  have hr_le : r ≤ 99 := by
    have : r < 100 := Nat.mod_lt _ (by norm_num)
    omega
  have hkQ : (k : ℚ) ≤ 90071992547409 := by exact_mod_cast hk_le
  have hrQ : (r : ℚ) ≤ 99 := by exact_mod_cast hr_le
  have hfrac_nonneg : (0 : ℚ) ≤ (12 * k + r * 5764607523034235) / 2 ^ 59 := by
    positivity
  have hfrac_le : (12 * (k : ℚ) + r * 5764607523034235) / 2 ^ 59
      ≤ 571777008690958173 / 576460752303423488 := by
    rw [div_le_div_iff₀ (by norm_num) (by norm_num)]
    nlinarith [hkQ, hrQ]
  have hx_lt : x < (2 : ℚ) ^ (47 : ℤ) := by
    rw [hx_eq]
    have : (2 : ℚ) ^ (47 : ℤ) = 140737488355328 := by norm_num
    rw [this]
    have h1 : (571777008690958173 : ℚ) / 576460752303423488 < 1 := by norm_num
    linarith
  have he_le : e ≤ 46 := by
    have := (Int.lt_zpow_iff_log_lt (by norm_num : 1 < 2) hx_pos).mp hx_lt
    omega
  have hu_le : u ≤ (2 : ℚ) ^ (-6 : ℤ) :=
    zpow_le_zpow_right₀ (by norm_num) (by omega)
  have hkx : (k : ℚ) ≤ x := by rw [hx_eq]; linarith
  -- every integer below `2^47` sits on the rounding grid
  set m : ℕ := (52 - e).toNat with hm
  have hm_eq : ((m : ℤ)) = 52 - e := by omega
  have hu_inv : u * (2 : ℚ) ^ m = 1 := by
    rw [hudef, ← zpow_natCast (2 : ℚ) m, hm_eq, ← zpow_add₀ (by norm_num : (2:ℚ) ≠ 0)]
    norm_num
  have hKdiv : (k : ℚ) / u = ((k * 2 ^ m : ℕ) : ℚ) := by
    push_cast
    rw [div_eq_iff (ne_of_gt hu_pos)]
    linear_combination (-(k : ℚ)) * hu_inv
  have hlow : (k : ℚ) ≤ roundDouble x := by
    rw [hRD]
    have h1 : ((k * 2 ^ m : ℕ) : ℤ) ≤ ⌊x / u⌋ := by
      apply Int.le_floor.mpr
      push_cast
      have : ((k * 2 ^ m : ℕ) : ℚ) ≤ x / u := by
        rw [← hKdiv]
        exact (div_le_div_iff_of_pos_right hu_pos).mpr hkx
      push_cast at this
      exact this
    have h2 : ⌊x / u⌋ ≤ round (x / u) := by
      rw [round_eq]
      exact Int.floor_mono (by linarith)
    have h3 : ((k * 2 ^ m : ℕ) : ℚ) ≤ (round (x / u) : ℚ) := by
      exact_mod_cast le_trans h1 h2
    calc (k : ℚ) = u * ((k : ℚ) / u) := by field_simp
    _ = u * ((k * 2 ^ m : ℕ) : ℚ) := by rw [hKdiv]
    _ ≤ u * (round (x / u) : ℚ) := by
      exact mul_le_mul_of_nonneg_left h3 hu_pos.le
  have hup : roundDouble x < (k : ℚ) + 1 := by
    rw [hRD]
    have h1 : (round (x / u) : ℚ) ≤ x / u + 1 / 2 := round_le_add_half _
    have h2 : u * (round (x / u) : ℚ) ≤ x + u / 2 := by
      calc u * (round (x / u) : ℚ) ≤ u * (x / u + 1 / 2) :=
        mul_le_mul_of_nonneg_left h1 hu_pos.le
      _ = x + u / 2 := by field_simp; ring
    have hu64 : u ≤ 1 / 64 := by
      calc u ≤ (2 : ℚ) ^ (-6 : ℤ) := hu_le
      _ = 1 / 64 := by norm_num
    have hu2 : u / 2 ≤ 1 / 128 := by linarith
    have hx_up : x ≤ (k : ℚ) + 571777008690958173 / 576460752303423488 := by
      rw [hx_eq]; linarith
    have : (571777008690958173 : ℚ) / 576460752303423488 + 1 / 128 < 1 := by norm_num
    linarith
  have hfloor : ⌊roundDouble x⌋ = (k : ℤ) := by
    rw [Int.floor_eq_iff]
    constructor
    · exact_mod_cast hlow
    · exact_mod_cast hup
  rw [jsFloorMul001, ← hxdef, hfloor]
  exact Int.toNat_natCast k

/-- At `makingAmount = 2^60` — an integer a double represents exactly — the
product `2^60 * 0.01` is the exact integer `2 * 5764607523034235`, one more
than `⌊2^60 / 100⌋`. -/
theorem jsFloorMul001_pow60 :
    jsFloorMul001 1152921504606846976 = 11529215046068470 := by
  have h0 : ((1152921504606846976 : ℕ) : ℚ) * fp01 = ((11529215046068470 : ℕ) : ℚ) := by
    norm_num [fp01]
  have hlog : Int.log 2 (((11529215046068470 : ℕ) : ℚ)) = 53 := by
    rw [Int.log_natCast]
    exact_mod_cast Nat.log_eq_of_pow_le_of_lt_pow
      (by norm_num : 2 ^ 53 ≤ 11529215046068470)
      (by norm_num : 11529215046068470 < 2 ^ (53 + 1))
  have hpos : (0 : ℚ) < ((11529215046068470 : ℕ) : ℚ) := by norm_num
  have hdiv : (((11529215046068470 : ℕ) : ℚ)) / (2 : ℚ) ^ ((53 : ℤ) - 52)
      = ((5764607523034235 : ℕ) : ℚ) := by
    norm_num
  rw [jsFloorMul001, h0, roundDouble, if_pos hpos, hlog, hdiv, round_natCast]
  norm_num
  rfl

/-- The fee on the default making amount. -/
theorem jsFloorMul001_default : jsFloorMul001 50000000 = 500000 := by
  have h := jsFloorMul001_eq_div 50000000 (by norm_num)
  simpa using h

/-- For every fee in the contiguous exactly-representable integer range of a
double (`a ≤ 2^53`), the JavaScript `Math.floor(a / 1000)` coincides with
the exact `⌊a / 1000⌋`. -/
theorem jsFloorDiv1000_eq_div (a : ℕ) (ha : a ≤ 2 ^ 53) :
    jsFloorDiv1000 a = a / 1000 := by
  rcases Nat.eq_zero_or_pos a with rfl | ha0
  · simp [jsFloorDiv1000, roundDouble]
  set x : ℚ := (a : ℚ) / 1000 with hxdef
  have hx_pos : 0 < x := by positivity
  set e : ℤ := Int.log 2 x with hedef
  set u : ℚ := (2 : ℚ) ^ (e - 52) with hudef
  have hu_pos : 0 < u := zpow_pos (by norm_num) _
  have hRD : roundDouble x = u * round (x / u) := by
    rw [roundDouble, if_pos hx_pos]
  set k : ℕ := a / 1000 with hkdef
  set r : ℕ := a % 1000 with hrdef
  have hakr : 1000 * k + r = a := Nat.div_add_mod a 1000
  have hx_eq : x = (k : ℚ) + (r : ℚ) / 1000 := by
    rw [hxdef]
    have hcast : (a : ℚ) = 1000 * (k : ℚ) + (r : ℚ) := by exact_mod_cast hakr.symm
    rw [hcast]
    ring
  have hr_le : r ≤ 999 := by
    have : r < 1000 := Nat.mod_lt _ (by norm_num)
    omega
  have hrQ : (r : ℚ) ≤ 999 := by exact_mod_cast hr_le
  have hrQ0 : (0 : ℚ) ≤ (r : ℚ) := by positivity
  have haQ : (a : ℚ) ≤ 9007199254740992 := by
    have : a ≤ 9007199254740992 := by
      calc a ≤ 2 ^ 53 := ha
      _ = 9007199254740992 := by norm_num
    exact_mod_cast this
  have hx_lt : x < (2 : ℚ) ^ (44 : ℤ) := by
    rw [hxdef]
    have : (2 : ℚ) ^ (44 : ℤ) = 17592186044416 := by norm_num
    rw [this]
    rw [div_lt_iff₀ (by norm_num : (0 : ℚ) < 1000)]
    linarith
  have he_le : e ≤ 43 := by
    have := (Int.lt_zpow_iff_log_lt (by norm_num : 1 < 2) hx_pos).mp hx_lt
    omega
  have hu_le : u ≤ (2 : ℚ) ^ (-9 : ℤ) :=
    zpow_le_zpow_right₀ (by norm_num) (by omega)
  have hkx : (k : ℚ) ≤ x := by
    rw [hx_eq]
    have : (0 : ℚ) ≤ (r : ℚ) / 1000 := by positivity
    linarith
  set m : ℕ := (52 - e).toNat with hm
  have hm_eq : ((m : ℤ)) = 52 - e := by omega
  have hu_inv : u * (2 : ℚ) ^ m = 1 := by
    rw [hudef, ← zpow_natCast (2 : ℚ) m, hm_eq, ← zpow_add₀ (by norm_num : (2:ℚ) ≠ 0)]
    norm_num
  have hKdiv : (k : ℚ) / u = ((k * 2 ^ m : ℕ) : ℚ) := by
    push_cast
    rw [div_eq_iff (ne_of_gt hu_pos)]
    linear_combination (-(k : ℚ)) * hu_inv
  have hlow : (k : ℚ) ≤ roundDouble x := by
    rw [hRD]
    have h1 : ((k * 2 ^ m : ℕ) : ℤ) ≤ ⌊x / u⌋ := by
      apply Int.le_floor.mpr
      push_cast
      have : ((k * 2 ^ m : ℕ) : ℚ) ≤ x / u := by
        rw [← hKdiv]
        exact (div_le_div_iff_of_pos_right hu_pos).mpr hkx
      push_cast at this
      exact this
    have h2 : ⌊x / u⌋ ≤ round (x / u) := by
      rw [round_eq]
      exact Int.floor_mono (by linarith)
    have h3 : ((k * 2 ^ m : ℕ) : ℚ) ≤ (round (x / u) : ℚ) := by
      exact_mod_cast le_trans h1 h2
    calc (k : ℚ) = u * ((k : ℚ) / u) := by field_simp
    _ = u * ((k * 2 ^ m : ℕ) : ℚ) := by rw [hKdiv]
    _ ≤ u * (round (x / u) : ℚ) := by
      exact mul_le_mul_of_nonneg_left h3 hu_pos.le
  have hup : roundDouble x < (k : ℚ) + 1 := by
    rw [hRD]
    have h1 : (round (x / u) : ℚ) ≤ x / u + 1 / 2 := round_le_add_half _
    have h2 : u * (round (x / u) : ℚ) ≤ x + u / 2 := by
      calc u * (round (x / u) : ℚ) ≤ u * (x / u + 1 / 2) :=
        mul_le_mul_of_nonneg_left h1 hu_pos.le
      _ = x + u / 2 := by field_simp; ring
    have hu512 : u ≤ 1 / 512 := by
      calc u ≤ (2 : ℚ) ^ (-9 : ℤ) := hu_le
      _ = 1 / 512 := by norm_num
    have hx_up : x ≤ (k : ℚ) + 999 / 1000 := by
      rw [hx_eq]
      have : (r : ℚ) / 1000 ≤ 999 / 1000 := by linarith
      linarith
    have : (999 : ℚ) / 1000 + 1 / 1024 < 1 := by norm_num
    linarith
  have hfloor : ⌊roundDouble x⌋ = (k : ℤ) := by
    rw [Int.floor_eq_iff]
    constructor
    · exact_mod_cast hlow
    · exact_mod_cast hup
  rw [jsFloorDiv1000, ← hxdef, hfloor]
  exact Int.toNat_natCast k

/-- At `makingAmount = 2^70` — an integer a double represents exactly — the
product with the double 0.01 is the exact integer `2^11 * 5764607523034235`,
so the fee is 11805916207174113280. -/
theorem jsFloorMul001_pow70 :
    jsFloorMul001 1180591620717411303424 = 11805916207174113280 := by
  have h0 : ((1180591620717411303424 : ℕ) : ℚ) * fp01 =
      ((11805916207174113280 : ℕ) : ℚ) := by
    norm_num [fp01]
  have hlog : Int.log 2 (((11805916207174113280 : ℕ) : ℚ)) = 63 := by
    rw [Int.log_natCast]
    exact_mod_cast Nat.log_eq_of_pow_le_of_lt_pow
      (by norm_num : 2 ^ 63 ≤ 11805916207174113280)
      (by norm_num : 11805916207174113280 < 2 ^ (63 + 1))
  have hpos : (0 : ℚ) < ((11805916207174113280 : ℕ) : ℚ) := by norm_num
  have hdiv : (((11805916207174113280 : ℕ) : ℚ)) / (2 : ℚ) ^ ((63 : ℤ) - 52)
      = ((5764607523034235 : ℕ) : ℚ) := by
    norm_num
  rw [jsFloorMul001, h0, roundDouble, if_pos hpos, hlog, hdiv, round_natCast]
  norm_num
  rfl

/-- Dividing the fee 11805916207174113280 by 1000 in double precision: the
exact quotient 11805916207174113.28 rounds up to the even-grid point
11805916207174114, one more than the exact floor. -/
theorem jsFloorDiv1000_fee70 :
    jsFloorDiv1000 11805916207174113280 = 11805916207174114 := by
  have hpos : (0 : ℚ) < ((11805916207174113280 : ℕ) : ℚ) / 1000 := by norm_num
  have hlog : Int.log 2 (((11805916207174113280 : ℕ) : ℚ) / 1000) = 53 := by
    have h1 : (2 : ℚ) ^ (53 : ℤ) ≤ ((11805916207174113280 : ℕ) : ℚ) / 1000 := by
      rw [le_div_iff₀ (by norm_num : (0 : ℚ) < 1000)]
      norm_num
    have h2 : ((11805916207174113280 : ℕ) : ℚ) / 1000 < (2 : ℚ) ^ (54 : ℤ) := by
      rw [div_lt_iff₀ (by norm_num : (0 : ℚ) < 1000)]
      norm_num
    have h3 := (Int.zpow_le_iff_le_log (by norm_num : 1 < 2) hpos).mp h1
    have h4 := (Int.lt_zpow_iff_log_lt (by norm_num : 1 < 2) hpos).mp h2
    omega
  have hround : round ((((11805916207174113280 : ℕ) : ℚ) / 1000) /
      (2 : ℚ) ^ ((53 : ℤ) - 52)) = 5902958103587057 := by
    rw [round_eq, Int.floor_eq_iff]
    constructor
    · show ((5902958103587057 : ℤ) : ℚ) ≤ _
      norm_num
    · norm_num
  rw [jsFloorDiv1000, roundDouble, if_pos hpos, hlog, hround]
  norm_num
  rfl

/-- The cancellation deserialization loop yields one transaction per
payload. -/
theorem deserializeAll_length (f : String → Option VersionedTransaction) :
    ∀ (payloads : List String) (txs : List VersionedTransaction),
      SubmitCancelBundle.deserializeAll f payloads = some txs →
      txs.length = payloads.length := by
  intro payloads
  induction payloads with
  | nil =>
    intro txs h
    simp [SubmitCancelBundle.deserializeAll] at h
    simp [← h]
  | cons p rest ih =>
    intro txs h
    rw [SubmitCancelBundle.deserializeAll] at h
    rcases hf : f p with _ | tx <;> simp only [hf] at h
    · exact Option.noConfusion h
    rcases hh : tx.signatures.head? with _ | s <;> simp only [hh] at h
    · exact Option.noConfusion h
    rcases hrest : SubmitCancelBundle.deserializeAll f rest with _ | txs0 <;>
      simp only [hrest, Option.map_some', Option.map_none'] at h
    · exact Option.noConfusion h
    rw [← Option.some.inj h]
    simp [ih txs0 hrest]

/-- The polling loop performs at most `attempts + fuel` checks. -/
theorem pollAux_checks_le (orderIds : List String)
    (listings : Nat → Option (List String)) :
    ∀ (fuel attempts : Nat),
      (OrderManagement.pollAux orderIds listings fuel attempts).checksPerformed
        ≤ attempts + fuel := by
  intro fuel
  induction fuel with
  | zero => intro attempts; simp [OrderManagement.pollAux]
  | succ f ih =>
    intro attempts
    rw [OrderManagement.pollAux]
    split
    · dsimp only
      omega
    · have := ih (attempts + 1)
      omega

/-- The polling loop always clears the in-progress state. -/
theorem pollAux_completed (orderIds : List String)
    (listings : Nat → Option (List String)) :
    ∀ (fuel attempts : Nat),
      (OrderManagement.pollAux orderIds listings fuel attempts).completed = true := by
  intro fuel
  induction fuel with
  | zero => intro attempts; simp [OrderManagement.pollAux]
  | succ f ih =>
    intro attempts
    rw [OrderManagement.pollAux]
    split
    · rfl
    · exact ih (attempts + 1)

/-- When no check ever succeeds, the loop exhausts its budget and gives up
without firing the callback. -/
theorem pollAux_never (orderIds : List String)
    (listings : Nat → Option (List String))
    (h : ∀ i, OrderManagement.checkOrders orderIds (listings i) = false) :
    ∀ (fuel attempts : Nat),
      OrderManagement.pollAux orderIds listings fuel attempts =
        { checksPerformed := attempts + fuel, confirmedCancelled := false,
          completed := true } := by
  intro fuel
  induction fuel with
  | zero => intro attempts; simp [OrderManagement.pollAux]
  | succ f ih =>
    intro attempts
    rw [OrderManagement.pollAux]
    rw [if_neg (by simp [h attempts])]
    rw [ih (attempts + 1)]
    congr 1
    omega

/-! ## The claims -/

/-- C9: the cancellation-completion polling loop performs at most 30
`checkOrders` attempts and terminates for every sequence of listing
responses; when the cancelled identifiers never disappear from the listing it
exhausts exactly the 30 attempts and reports completion (clears the
in-progress state) without firing the success callback. -/
theorem polling_bounded_gives_up_silently (orderIds : List String)
    (listings : Nat → Option (List String)) :
    (OrderManagement.pollForOrderCancellation orderIds listings).checksPerformed
      ≤ OrderManagement.maxAttempts ∧
    (OrderManagement.pollForOrderCancellation orderIds listings).completed = true ∧
    ((∀ i, OrderManagement.checkOrders orderIds (listings i) = false) →
      OrderManagement.pollForOrderCancellation orderIds listings =
        { checksPerformed := 30, confirmedCancelled := false, completed := true }) := by
  refine ⟨?_, ?_, ?_⟩
  · have := pollAux_checks_le orderIds listings OrderManagement.maxAttempts 0
    simpa [OrderManagement.pollForOrderCancellation] using this
  · exact pollAux_completed orderIds listings OrderManagement.maxAttempts 0
  · intro h
    have := pollAux_never orderIds listings h OrderManagement.maxAttempts 0
    simpa [OrderManagement.pollForOrderCancellation, OrderManagement.maxAttempts]
      using this

/-- C9 witness: a listing in which the cancelled order id never disappears
drives the loop through exactly 30 attempts, completing without success. -/
theorem polling_bounded_gives_up_silently_witness :
    (OrderManagement.pollForOrderCancellation ["O1"] (fun _ => some ["O1"])).checksPerformed
      ≤ OrderManagement.maxAttempts ∧
    (OrderManagement.pollForOrderCancellation ["O1"] (fun _ => some ["O1"])).completed = true ∧
    OrderManagement.pollForOrderCancellation ["O1"] (fun _ => some ["O1"]) =
      { checksPerformed := 30, confirmedCancelled := false, completed := true } := by
  have h := polling_bounded_gives_up_silently ["O1"] (fun _ => some ["O1"])
  exact ⟨h.1, h.2.1, h.2.2 (fun i => by decide)⟩

/-- C6: when the configuration a submission endpoint requires is absent
(relay endpoint URL, signing key or ledger RPC URL for the two bundle
routes; signing key or ledger RPC URL for the order-creation proxy, which
does not use the relay), that endpoint answers with the configuration-error
failure response and performs no network call to the relay or the ledger:
its outcome carries an empty call trace and no submitted bundle. -/
theorem config_missing_fails_before_network (env : ServerEnv)
    (envO : CreateOrderJito.Env) (reqJ : SubmitJitoBundle.Request)
    (reqC : SubmitCancelBundle.Request) (reqO : CreateOrderJito.Request) :
    (SubmitJitoBundle.configOk env = false →
      SubmitJitoBundle.handler env "POST" reqJ =
        { response :=
            { status := 500, success := false,
              error := some bundleConfigErrorMsg },
          submitted := none, calls := [] } ∧
      SubmitCancelBundle.handler env "POST" reqC =
        { response :=
            { status := 500, success := false,
              error := some bundleConfigErrorMsg },
          submitted := none, calls := [] }) ∧
    (CreateOrderJito.configOk envO = false →
      CreateOrderJito.handler envO "POST" reqO =
        { response :=
            { status := 500, success := false,
              error := some CreateOrderJito.configErrorMsg },
          submitted := none, calls := [] }) := by
  constructor
  · intro h
    constructor
    · rw [SubmitJitoBundle.handler, if_neg (by simp), if_pos (by simp [h])]
    · rw [SubmitCancelBundle.handler, if_neg (by simp), if_pos (by simp [h])]
  · intro h
    rw [CreateOrderJito.handler, if_neg (by simp), if_pos (by simp [h])]

/-- C6 witness: with an unreadable `.env` file and an empty process
environment, all three endpoints fail fast with the configuration error. -/
theorem config_missing_fails_before_network_witness :
    SubmitJitoBundle.configOk
      { envFileContent := none, procEnv := fun _ => none,
        parseKeypair := fun _ => none, tipAccountsResult := .ok [],
        tipIndex := 0, deserialize := fun _ => none, blockhash := "",
        splAta := fun _ _ => none, sendBundleResult := .ok "" } = false ∧
    SubmitJitoBundle.handler
      { envFileContent := none, procEnv := fun _ => none,
        parseKeypair := fun _ => none, tipAccountsResult := .ok [],
        tipIndex := 0, deserialize := fun _ => none, blockhash := "",
        splAta := fun _ _ => none, sendBundleResult := .ok "" } "POST"
      { signedTransaction := "", orderId := "O1" } =
      { response :=
          { status := 500, success := false,
            error := some bundleConfigErrorMsg },
        submitted := none, calls := [] } := by
  have h := config_missing_fails_before_network
    { envFileContent := none, procEnv := fun _ => none,
      parseKeypair := fun _ => none, tipAccountsResult := .ok [],
      tipIndex := 0, deserialize := fun _ => none, blockhash := "",
      splAta := fun _ _ => none, sendBundleResult := .ok "" }
    { envFileContent := none, procEnv := fun _ => none,
      parseKeypair := fun _ => none,
      jupiterCreateOrder := .error (500, ""), deserialize := fun _ => none,
      blockhash := "", sendTransactionResult := .error "",
      confirmErr := none }
    { signedTransaction := "", orderId := "O1" }
    { signedTransactions := [], orderIds := [] }
    { inputMint := "", outputMint := "", maker := "", makingAmount := "",
      takingAmount := "" }
  exact ⟨rfl, (h.1 rfl).1⟩

/-- C2: when the relay's tip-account query succeeds but returns an empty
list, both submission handlers fail with an explicit error (the indexing of
the empty list throws in the `PublicKey` constructor), no bundle is
submitted, and `sendBundle` is never called. -/
theorem empty_tip_accounts_fails (env : ServerEnv)
    (reqJ : SubmitJitoBundle.Request) (reqC : SubmitCancelBundle.Request)
    (kp : Keypair)
    (hcfg : SubmitJitoBundle.configOk env = true)
    (hkp : SubmitJitoBundle.serverKeypair env = some kp)
    (hacc : env.tipAccountsResult = .ok []) :
    (SubmitJitoBundle.handler env "POST" reqJ).response.success = false ∧
    (SubmitJitoBundle.handler env "POST" reqJ).response.error =
      some "Cannot read properties of undefined (reading '_bn')" ∧
    (SubmitJitoBundle.handler env "POST" reqJ).submitted = none ∧
    NetworkCall.sendBundle ∉ (SubmitJitoBundle.handler env "POST" reqJ).calls ∧
    (SubmitCancelBundle.handler env "POST" reqC).response.success = false ∧
    (SubmitCancelBundle.handler env "POST" reqC).response.error =
      some "Cannot read properties of undefined (reading '_bn')" ∧
    (SubmitCancelBundle.handler env "POST" reqC).submitted = none ∧
    NetworkCall.sendBundle ∉ (SubmitCancelBundle.handler env "POST" reqC).calls := by
  have htip : getRandomTipAccountAddress env.tipAccountsResult env.tipIndex =
      .error "Cannot read properties of undefined (reading '_bn')" := by
    rw [hacc, getRandomTipAccountAddress]
    rfl
  have hJ : SubmitJitoBundle.handler env "POST" reqJ =
      { response :=
          { status := 500, success := false,
            error := some "Cannot read properties of undefined (reading '_bn')" },
        submitted := none,
        calls := [.subscribeBundleResults, .getTipAccounts] } := by
    rw [SubmitJitoBundle.handler, if_neg (by simp), if_neg (by simp [hcfg]),
      hkp, htip]
  have hC : SubmitCancelBundle.handler env "POST" reqC =
      { response :=
          { status := 500, success := false,
            error := some "Cannot read properties of undefined (reading '_bn')" },
        submitted := none,
        calls := [.subscribeBundleResults, .getTipAccounts] } := by
    rw [SubmitCancelBundle.handler, if_neg (by simp), if_neg (by simp [hcfg]),
      hkp, htip]
  rw [hJ, hC]
  refine ⟨rfl, rfl, rfl, by simp, rfl, rfl, rfl, by simp⟩

/-- C2 witness: a healthy environment whose relay reports zero tip accounts
makes both submission routes fail without submitting anything. -/
theorem empty_tip_accounts_fails_witness :
    (SubmitJitoBundle.handler { envOkBase with tipAccountsResult := .ok [] }
      "POST" { signedTransaction := "tx", orderId := "O1" }).response.success = false ∧
    (SubmitJitoBundle.handler { envOkBase with tipAccountsResult := .ok [] }
      "POST" { signedTransaction := "tx", orderId := "O1" }).response.error =
      some "Cannot read properties of undefined (reading '_bn')" ∧
    (SubmitJitoBundle.handler { envOkBase with tipAccountsResult := .ok [] }
      "POST" { signedTransaction := "tx", orderId := "O1" }).submitted = none ∧
    NetworkCall.sendBundle ∉ (SubmitJitoBundle.handler
      { envOkBase with tipAccountsResult := .ok [] }
      "POST" { signedTransaction := "tx", orderId := "O1" }).calls ∧
    (SubmitCancelBundle.handler { envOkBase with tipAccountsResult := .ok [] }
      "POST" { signedTransactions := ["tx"], orderIds := ["O1"] }).response.success = false ∧
    (SubmitCancelBundle.handler { envOkBase with tipAccountsResult := .ok [] }
      "POST" { signedTransactions := ["tx"], orderIds := ["O1"] }).response.error =
      some "Cannot read properties of undefined (reading '_bn')" ∧
    (SubmitCancelBundle.handler { envOkBase with tipAccountsResult := .ok [] }
      "POST" { signedTransactions := ["tx"], orderIds := ["O1"] }).submitted = none ∧
    NetworkCall.sendBundle ∉ (SubmitCancelBundle.handler
      { envOkBase with tipAccountsResult := .ok [] }
      "POST" { signedTransactions := ["tx"], orderIds := ["O1"] }).calls :=
  empty_tip_accounts_fails { envOkBase with tipAccountsResult := .ok [] }
    { signedTransaction := "tx", orderId := "O1" }
    { signedTransactions := ["tx"], orderIds := ["O1"] }
    { publicKey := "SRV" } rfl rfl rfl

/-- C1: for every valid signed transaction and order id the creation-path
handler accepts (configuration present, keypair parsed, tip account
resolved, caller transaction deserialized with a signature), the bundle it
submits to the relay has exactly 3 entries, in the order caller transaction,
fee transaction, tip transaction, with the tip transaction last. -/
theorem creation_bundle_three_entries_tip_last (env : ServerEnv)
    (req : SubmitJitoBundle.Request) (kp : Keypair) (tipAccount : String)
    (userTx : VersionedTransaction) (userSig : String)
    (hcfg : SubmitJitoBundle.configOk env = true)
    (hkp : SubmitJitoBundle.serverKeypair env = some kp)
    (htip : getRandomTipAccountAddress env.tipAccountsResult env.tipIndex =
      .ok tipAccount)
    (hde : env.deserialize req.signedTransaction = some userTx)
    (hsig : userTx.signatures.head? = some userSig) :
    (SubmitJitoBundle.handler env "POST" req).submitted =
      some { txs := [userTx, SubmitJitoBundle.feeTx env req kp,
                     SubmitJitoBundle.tipTx env kp tipAccount],
             limit := SubmitJitoBundle.bundleTransactionLimit env } ∧
    [userTx, SubmitJitoBundle.feeTx env req kp,
     SubmitJitoBundle.tipTx env kp tipAccount].length = 3 ∧
    [userTx, SubmitJitoBundle.feeTx env req kp,
     SubmitJitoBundle.tipTx env kp tipAccount].getLast? =
      some (SubmitJitoBundle.tipTx env kp tipAccount) := by
  refine ⟨?_, rfl, rfl⟩
  rw [SubmitJitoBundle.handler, if_neg (by simp), if_neg (by simp [hcfg])]
  simp only [hkp, htip, hde, hsig]
  cases env.sendBundleResult <;> rfl

/-- C1 witness: the healthy environment submits exactly the three-entry
bundle. -/
theorem creation_bundle_three_entries_tip_last_witness :
    (SubmitJitoBundle.handler envOkBase "POST"
      { signedTransaction := "tx", orderId := "O1" }).submitted =
      some { txs :=
               [{ payerKey := "USR", recentBlockhash := "UBH",
                  instructions := [], signatures := ["usersig"] },
                SubmitJitoBundle.feeTx envOkBase
                  { signedTransaction := "tx", orderId := "O1" }
                  { publicKey := "SRV" },
                SubmitJitoBundle.tipTx envOkBase { publicKey := "SRV" } "TIP2"],
             limit := SubmitJitoBundle.bundleTransactionLimit envOkBase } ∧
    [{ payerKey := "USR", recentBlockhash := "UBH",
       instructions := [], signatures := ["usersig"] },
     SubmitJitoBundle.feeTx envOkBase
       { signedTransaction := "tx", orderId := "O1" } { publicKey := "SRV" },
     SubmitJitoBundle.tipTx envOkBase { publicKey := "SRV" } "TIP2"].length = 3 ∧
    [{ payerKey := "USR", recentBlockhash := "UBH",
       instructions := [], signatures := ["usersig"] },
     SubmitJitoBundle.feeTx envOkBase
       { signedTransaction := "tx", orderId := "O1" } { publicKey := "SRV" },
     SubmitJitoBundle.tipTx envOkBase { publicKey := "SRV" } "TIP2"].getLast? =
      some (SubmitJitoBundle.tipTx envOkBase { publicKey := "SRV" } "TIP2") :=
  creation_bundle_three_entries_tip_last envOkBase
    { signedTransaction := "tx", orderId := "O1" } { publicKey := "SRV" }
    "TIP2"
    { payerKey := "USR", recentBlockhash := "UBH",
      instructions := [], signatures := ["usersig"] }
    "usersig" rfl rfl rfl rfl rfl

/-- C8: on the creation path the service-built fee and tip transactions both
embed the blockhash of the single per-request ledger query (the handler's
call trace contains `getLatestBlockhash` exactly once), and each carries the
service key's signature before the bundle containing them is assembled. -/
theorem creation_shared_blockhash_signed (env : ServerEnv)
    (req : SubmitJitoBundle.Request) (kp : Keypair) (tipAccount : String)
    (userTx : VersionedTransaction) (userSig : String)
    (hcfg : SubmitJitoBundle.configOk env = true)
    (hkp : SubmitJitoBundle.serverKeypair env = some kp)
    (htip : getRandomTipAccountAddress env.tipAccountsResult env.tipIndex =
      .ok tipAccount)
    (hde : env.deserialize req.signedTransaction = some userTx)
    (hsig : userTx.signatures.head? = some userSig) :
    (SubmitJitoBundle.feeTx env req kp).recentBlockhash = env.blockhash ∧
    (SubmitJitoBundle.tipTx env kp tipAccount).recentBlockhash = env.blockhash ∧
    (SubmitJitoBundle.feeTx env req kp).signatures = [sigOf kp env.blockhash] ∧
    (SubmitJitoBundle.tipTx env kp tipAccount).signatures = [sigOf kp env.blockhash] ∧
    (SubmitJitoBundle.handler env "POST" req).calls.count
      NetworkCall.getLatestBlockhash = 1 ∧
    (SubmitJitoBundle.handler env "POST" req).submitted =
      some { txs := [userTx, SubmitJitoBundle.feeTx env req kp,
                     SubmitJitoBundle.tipTx env kp tipAccount],
             limit := SubmitJitoBundle.bundleTransactionLimit env } := by
  have hfee_bh : (SubmitJitoBundle.feeTx env req kp).recentBlockhash = env.blockhash := by
    rw [SubmitJitoBundle.feeTx]
    split
    · rfl
    · split <;> rfl
  have hfee_sig : (SubmitJitoBundle.feeTx env req kp).signatures =
      [sigOf kp env.blockhash] := by
    rw [SubmitJitoBundle.feeTx]
    split
    · rfl
    · split <;> rfl
  refine ⟨hfee_bh, rfl, hfee_sig, rfl, ?_, ?_⟩ <;>
  · rw [SubmitJitoBundle.handler, if_neg (by simp), if_neg (by simp [hcfg])]
    simp only [hkp, htip, hde, hsig]
    cases env.sendBundleResult <;> rfl

/-- C8 witness: instantiated at the healthy environment. -/
theorem creation_shared_blockhash_signed_witness :
    (SubmitJitoBundle.feeTx envOkBase
      { signedTransaction := "tx", orderId := "O1" }
      { publicKey := "SRV" }).recentBlockhash = envOkBase.blockhash ∧
    (SubmitJitoBundle.tipTx envOkBase { publicKey := "SRV" }
      "TIP2").recentBlockhash = envOkBase.blockhash ∧
    (SubmitJitoBundle.feeTx envOkBase
      { signedTransaction := "tx", orderId := "O1" }
      { publicKey := "SRV" }).signatures =
      [sigOf { publicKey := "SRV" } envOkBase.blockhash] ∧
    (SubmitJitoBundle.tipTx envOkBase { publicKey := "SRV" } "TIP2").signatures =
      [sigOf { publicKey := "SRV" } envOkBase.blockhash] ∧
    (SubmitJitoBundle.handler envOkBase "POST"
      { signedTransaction := "tx", orderId := "O1" }).calls.count
      NetworkCall.getLatestBlockhash = 1 ∧
    (SubmitJitoBundle.handler envOkBase "POST"
      { signedTransaction := "tx", orderId := "O1" }).submitted =
      some { txs :=
               [{ payerKey := "USR", recentBlockhash := "UBH",
                  instructions := [], signatures := ["usersig"] },
                SubmitJitoBundle.feeTx envOkBase
                  { signedTransaction := "tx", orderId := "O1" }
                  { publicKey := "SRV" },
                SubmitJitoBundle.tipTx envOkBase { publicKey := "SRV" } "TIP2"],
             limit := SubmitJitoBundle.bundleTransactionLimit envOkBase } :=
  creation_shared_blockhash_signed envOkBase
    { signedTransaction := "tx", orderId := "O1" } { publicKey := "SRV" }
    "TIP2"
    { payerKey := "USR", recentBlockhash := "UBH",
      instructions := [], signatures := ["usersig"] }
    "usersig" rfl rfl rfl rfl rfl

/-- C4 counterexample: at `makingAmount = 2^70` — an integer a double
represents exactly and the handler accepts unbounded — the fee is
11805916207174113280, and the fallback transfers the double-precision
`Math.floor(fee / 1000) = 11805916207174114` lamports, not the exact
`⌊fee / 1000⌋ = 11805916207174113` the claim states. -/
theorem spl_fallback_exact_floor_counterexample :
    SubmitJitoBundle.feeTx envOkBase
      { signedTransaction := "tx", orderId := "O1",
        makingAmount := some 1180591620717411303424,
        inputMint := some "USDCmint" } { publicKey := "SRV" } ≠
      mkServerTx { publicKey := "SRV" } envOkBase.blockhash
        (.systemTransfer "SRV" feeWalletAddress
          (SubmitJitoBundle.feeAmountUnits
            { signedTransaction := "tx", orderId := "O1",
              makingAmount := some 1180591620717411303424,
              inputMint := some "USDCmint" } / 1000)) ∧
    SubmitJitoBundle.feeTx envOkBase
      { signedTransaction := "tx", orderId := "O1",
        makingAmount := some 1180591620717411303424,
        inputMint := some "USDCmint" } { publicKey := "SRV" } =
      mkServerTx { publicKey := "SRV" } envOkBase.blockhash
        (.systemTransfer "SRV" feeWalletAddress 11805916207174114) ∧
    SubmitJitoBundle.feeAmountUnits
      { signedTransaction := "tx", orderId := "O1",
        makingAmount := some 1180591620717411303424,
        inputMint := some "USDCmint" } / 1000 = 11805916207174113 := by
  have hfam : SubmitJitoBundle.feeAmountUnits
      { signedTransaction := "tx", orderId := "O1",
        makingAmount := some 1180591620717411303424,
        inputMint := some "USDCmint" } = 11805916207174113280 := by
    rw [SubmitJitoBundle.feeAmountUnits, SubmitJitoBundle.makingAmountUnits]
    rw [show jsOrNat (some 1180591620717411303424) defaultMakingAmount =
      1180591620717411303424 from rfl]
    exact jsFloorMul001_pow70
  have hfee0 : SubmitJitoBundle.feeTx envOkBase
      { signedTransaction := "tx", orderId := "O1",
        makingAmount := some 1180591620717411303424,
        inputMint := some "USDCmint" } { publicKey := "SRV" } =
      mkServerTx { publicKey := "SRV" } envOkBase.blockhash
        (.systemTransfer "SRV" feeWalletAddress
          (jsFloorDiv1000 (SubmitJitoBundle.feeAmountUnits
            { signedTransaction := "tx", orderId := "O1",
              makingAmount := some 1180591620717411303424,
              inputMint := some "USDCmint" }))) := rfl
  have hfee : SubmitJitoBundle.feeTx envOkBase
      { signedTransaction := "tx", orderId := "O1",
        makingAmount := some 1180591620717411303424,
        inputMint := some "USDCmint" } { publicKey := "SRV" } =
      mkServerTx { publicKey := "SRV" } envOkBase.blockhash
        (.systemTransfer "SRV" feeWalletAddress 11805916207174114) := by
    rw [hfee0, hfam, jsFloorDiv1000_fee70]
  refine ⟨?_, hfee, ?_⟩
  · rw [hfee, hfam]
    decide
  · rw [hfam]

/-- C4 (amended): on the creation path, when the input asset is not the
native mint, the SPL-token fee-transfer construction fails for any reason,
and the effective making amount is at most `2^53` (so the double-precision
`Math.floor(fee / 1000)` agrees with the exact quotient), the handler builds
instead a native transfer of `⌊fee / 1000⌋` lamports from the service key to
the fixed fee-collection address, and the request still proceeds to bundle
assembly and submission rather than failing. -/
theorem spl_failure_falls_back_native (env : ServerEnv)
    (req : SubmitJitoBundle.Request) (kp : Keypair) (tipAccount : String)
    (userTx : VersionedTransaction) (userSig : String)
    (hcfg : SubmitJitoBundle.configOk env = true)
    (hkp : SubmitJitoBundle.serverKeypair env = some kp)
    (htip : getRandomTipAccountAddress env.tipAccountsResult env.tipIndex =
      .ok tipAccount)
    (hde : env.deserialize req.signedTransaction = some userTx)
    (hsig : userTx.signatures.head? = some userSig)
    (hmint : SubmitJitoBundle.currentInputMint req ≠ SOL_MINT)
    (hspl : env.splAta (SubmitJitoBundle.currentInputMint req) kp.publicKey = none ∨
      env.splAta (SubmitJitoBundle.currentInputMint req) feeWalletAddress = none)
    (hamt : SubmitJitoBundle.makingAmountUnits req ≤ 2 ^ 53) :
    SubmitJitoBundle.feeTx env req kp =
      mkServerTx kp env.blockhash
        (.systemTransfer kp.publicKey feeWalletAddress
          (SubmitJitoBundle.feeAmountUnits req / 1000)) ∧
    (SubmitJitoBundle.handler env "POST" req).submitted =
      some { txs := [userTx, SubmitJitoBundle.feeTx env req kp,
                     SubmitJitoBundle.tipTx env kp tipAccount],
             limit := SubmitJitoBundle.bundleTransactionLimit env } := by
  have hfee_le : SubmitJitoBundle.feeAmountUnits req ≤ 2 ^ 53 := by
    have h := jsFloorMul001_eq_div (SubmitJitoBundle.makingAmountUnits req) hamt
    rw [SubmitJitoBundle.feeAmountUnits, h]
    have := Nat.div_le_self (SubmitJitoBundle.makingAmountUnits req) 100
    omega
  have hdiv : jsFloorDiv1000 (SubmitJitoBundle.feeAmountUnits req) =
      SubmitJitoBundle.feeAmountUnits req / 1000 :=
    jsFloorDiv1000_eq_div _ hfee_le
  constructor
  · rw [SubmitJitoBundle.feeTx, if_neg hmint]
    rcases hspl with h | h <;>
      cases h1 : env.splAta (SubmitJitoBundle.currentInputMint req) kp.publicKey <;>
      cases h2 : env.splAta (SubmitJitoBundle.currentInputMint req) feeWalletAddress <;>
      simp_all
  · rw [SubmitJitoBundle.handler, if_neg (by simp), if_neg (by simp [hcfg])]
    simp only [hkp, htip, hde, hsig]
    cases env.sendBundleResult <;> rfl

/-- C4 witness: a non-native input mint whose associated-account derivation
fails, at the default making amount, falls back to the native transfer of
`⌊500000 / 1000⌋ = 500` lamports and the bundle is still assembled and
submitted. -/
theorem spl_failure_falls_back_native_witness :
    SubmitJitoBundle.feeTx envOkBase
      { signedTransaction := "tx", orderId := "O1",
        inputMint := some "USDCmint" } { publicKey := "SRV" } =
      mkServerTx { publicKey := "SRV" } envOkBase.blockhash
        (.systemTransfer "SRV" feeWalletAddress
          (SubmitJitoBundle.feeAmountUnits
            { signedTransaction := "tx", orderId := "O1",
              inputMint := some "USDCmint" } / 1000)) ∧
    (SubmitJitoBundle.handler envOkBase "POST"
      { signedTransaction := "tx", orderId := "O1",
        inputMint := some "USDCmint" }).submitted =
      some { txs :=
               [{ payerKey := "USR", recentBlockhash := "UBH",
                  instructions := [], signatures := ["usersig"] },
                SubmitJitoBundle.feeTx envOkBase
                  { signedTransaction := "tx", orderId := "O1",
                    inputMint := some "USDCmint" } { publicKey := "SRV" },
                SubmitJitoBundle.tipTx envOkBase { publicKey := "SRV" } "TIP2"],
             limit := SubmitJitoBundle.bundleTransactionLimit envOkBase } :=
  spl_failure_falls_back_native envOkBase
    { signedTransaction := "tx", orderId := "O1", inputMint := some "USDCmint" }
    { publicKey := "SRV" } "TIP2"
    { payerKey := "USR", recentBlockhash := "UBH",
      instructions := [], signatures := ["usersig"] }
    "usersig" rfl rfl rfl rfl rfl (by decide) (Or.inl rfl) (by decide)

/-- C5: for every cancellation request whose `k` caller-signed transactions
all deserialize, the bundle the cancellation handler submits has exactly
`k + 1` entries: the `k` cancellation transactions in their given order
followed by the tip transaction last; no fee transaction is built on this
path. -/
theorem cancel_bundle_k_plus_one_tip_last (env : ServerEnv)
    (req : SubmitCancelBundle.Request) (kp : Keypair) (tipAccount : String)
    (userTxs : List VersionedTransaction)
    (hcfg : SubmitJitoBundle.configOk env = true)
    (hkp : SubmitJitoBundle.serverKeypair env = some kp)
    (htip : getRandomTipAccountAddress env.tipAccountsResult env.tipIndex =
      .ok tipAccount)
    (hde : SubmitCancelBundle.deserializeAll env.deserialize
      req.signedTransactions = some userTxs) :
    (SubmitCancelBundle.handler env "POST" req).submitted =
      some { txs := userTxs ++ [SubmitCancelBundle.tipTx env kp tipAccount],
             limit := SubmitJitoBundle.bundleTransactionLimit env } ∧
    (userTxs ++ [SubmitCancelBundle.tipTx env kp tipAccount]).length =
      req.signedTransactions.length + 1 ∧
    (userTxs ++ [SubmitCancelBundle.tipTx env kp tipAccount]).getLast? =
      some (SubmitCancelBundle.tipTx env kp tipAccount) := by
  refine ⟨?_, ?_, List.getLast?_concat userTxs⟩
  · rw [SubmitCancelBundle.handler, if_neg (by simp), if_neg (by simp [hcfg])]
    simp only [hkp, htip, hde]
    cases env.sendBundleResult <;> rfl
  · simp [deserializeAll_length env.deserialize req.signedTransactions userTxs hde]

/-- C5 witness: a two-transaction cancellation request yields a three-entry
bundle, tip last. -/
theorem cancel_bundle_k_plus_one_tip_last_witness :
    (SubmitCancelBundle.handler envOkBase "POST"
      { signedTransactions := ["tx1", "tx2"], orderIds := ["O1", "O2"] }).submitted =
      some { txs :=
               [{ payerKey := "USR", recentBlockhash := "UBH",
                  instructions := [], signatures := ["usersig"] },
                { payerKey := "USR", recentBlockhash := "UBH",
                  instructions := [], signatures := ["usersig"] }] ++
               [SubmitCancelBundle.tipTx envOkBase { publicKey := "SRV" } "TIP2"],
             limit := SubmitJitoBundle.bundleTransactionLimit envOkBase } ∧
    (([{ payerKey := "USR", recentBlockhash := "UBH",
         instructions := [], signatures := ["usersig"] },
       { payerKey := "USR", recentBlockhash := "UBH",
         instructions := [], signatures := ["usersig"] }] :
        List VersionedTransaction) ++
     [SubmitCancelBundle.tipTx envOkBase { publicKey := "SRV" } "TIP2"]).length =
      (["tx1", "tx2"] : List String).length + 1 ∧
    (([{ payerKey := "USR", recentBlockhash := "UBH",
         instructions := [], signatures := ["usersig"] },
       { payerKey := "USR", recentBlockhash := "UBH",
         instructions := [], signatures := ["usersig"] }] :
        List VersionedTransaction) ++
     [SubmitCancelBundle.tipTx envOkBase { publicKey := "SRV" } "TIP2"]).getLast? =
      some (SubmitCancelBundle.tipTx envOkBase { publicKey := "SRV" } "TIP2") :=
  cancel_bundle_k_plus_one_tip_last envOkBase
    { signedTransactions := ["tx1", "tx2"], orderIds := ["O1", "O2"] }
    { publicKey := "SRV" } "TIP2"
    [{ payerKey := "USR", recentBlockhash := "UBH",
       instructions := [], signatures := ["usersig"] },
     { payerKey := "USR", recentBlockhash := "UBH",
       instructions := [], signatures := ["usersig"] }]
    rfl rfl rfl rfl

/-- C7: end-to-end creation scenario — with the native mint as input,
`makingAmount = 50000000`, a relay that reports a tip-account set containing
the randomly indexed account, and a relay that accepts the bundle: the fee
transaction transfers 500000 base units from the service key to the fixed
fee-collection address, the tip transaction transfers 1000 base units to an
account drawn from the relay's reported set, the bundle is
`[user tx, fee tx, tip tx]`, and the success response carries the
relay-issued bundle id and the user transaction's signature. -/
theorem end_to_end_creation (env : ServerEnv) (req : SubmitJitoBundle.Request)
    (kp : Keypair) (accounts : List String) (tipAccount : String)
    (userTx : VersionedTransaction) (userSig : String) (uuid : String)
    (hcfg : SubmitJitoBundle.configOk env = true)
    (hkp : SubmitJitoBundle.serverKeypair env = some kp)
    (hacc : env.tipAccountsResult = .ok accounts)
    (hget : accounts.get? env.tipIndex = some tipAccount)
    (hde : env.deserialize req.signedTransaction = some userTx)
    (hsig : userTx.signatures.head? = some userSig)
    (hmint : req.inputMint = some SOL_MINT)
    (hamt : req.makingAmount = some 50000000)
    (hsend : env.sendBundleResult = .ok uuid) :
    SubmitJitoBundle.feeTx env req kp =
      mkServerTx kp env.blockhash
        (.systemTransfer kp.publicKey feeWalletAddress 500000) ∧
    SubmitJitoBundle.tipTx env kp tipAccount =
      mkServerTx kp env.blockhash
        (.systemTransfer kp.publicKey tipAccount 1000) ∧
    tipAccount ∈ accounts ∧
    (SubmitJitoBundle.handler env "POST" req).submitted =
      some { txs := [userTx, SubmitJitoBundle.feeTx env req kp,
                     SubmitJitoBundle.tipTx env kp tipAccount],
             limit := SubmitJitoBundle.bundleTransactionLimit env } ∧
    (SubmitJitoBundle.handler env "POST" req).response =
      { status := 200, success := true, bundleId := some uuid,
        signature := some (bs58encode userSig) } := by
  have htip : getRandomTipAccountAddress env.tipAccountsResult env.tipIndex =
      .ok tipAccount := by
    rw [hacc, getRandomTipAccountAddress]
    simp only [hget]
  have hcur : SubmitJitoBundle.currentInputMint req = SOL_MINT := by
    rw [SubmitJitoBundle.currentInputMint, hmint]
    rfl
  have hfamt : SubmitJitoBundle.feeAmountUnits req = 500000 := by
    rw [SubmitJitoBundle.feeAmountUnits, SubmitJitoBundle.makingAmountUnits, hamt]
    rw [show jsOrNat (some 50000000) defaultMakingAmount = 50000000 from rfl]
    exact jsFloorMul001_default
  have hfee : SubmitJitoBundle.feeTx env req kp =
      mkServerTx kp env.blockhash
        (.systemTransfer kp.publicKey feeWalletAddress 500000) := by
    rw [SubmitJitoBundle.feeTx, if_pos hcur, hfamt]
  refine ⟨hfee, rfl, List.get?_mem hget, ?_, ?_⟩ <;>
  · rw [SubmitJitoBundle.handler, if_neg (by simp), if_neg (by simp [hcfg])]
    simp only [hkp, htip, hde, hsig, hsend]

/-- C7 witness: the healthy environment with order id "O1",
`makingAmount = 50000000` and the native mint. -/
theorem end_to_end_creation_witness :
    SubmitJitoBundle.feeTx envOkBase
      { signedTransaction := "tx", orderId := "O1",
        makingAmount := some 50000000, inputMint := some SOL_MINT }
      { publicKey := "SRV" } =
      mkServerTx { publicKey := "SRV" } envOkBase.blockhash
        (.systemTransfer "SRV" feeWalletAddress 500000) ∧
    SubmitJitoBundle.tipTx envOkBase { publicKey := "SRV" } "TIP2" =
      mkServerTx { publicKey := "SRV" } envOkBase.blockhash
        (.systemTransfer "SRV" "TIP2" 1000) ∧
    "TIP2" ∈ (["TIP1", "TIP2"] : List String) ∧
    (SubmitJitoBundle.handler envOkBase "POST"
      { signedTransaction := "tx", orderId := "O1",
        makingAmount := some 50000000, inputMint := some SOL_MINT }).submitted =
      some { txs :=
               [{ payerKey := "USR", recentBlockhash := "UBH",
                  instructions := [], signatures := ["usersig"] },
                SubmitJitoBundle.feeTx envOkBase
                  { signedTransaction := "tx", orderId := "O1",
                    makingAmount := some 50000000, inputMint := some SOL_MINT }
                  { publicKey := "SRV" },
                SubmitJitoBundle.tipTx envOkBase { publicKey := "SRV" } "TIP2"],
             limit := SubmitJitoBundle.bundleTransactionLimit envOkBase } ∧
    (SubmitJitoBundle.handler envOkBase "POST"
      { signedTransaction := "tx", orderId := "O1",
        makingAmount := some 50000000, inputMint := some SOL_MINT }).response =
      { status := 200, success := true, bundleId := some "uuid-1",
        signature := some (bs58encode "usersig") } :=
  end_to_end_creation envOkBase
    { signedTransaction := "tx", orderId := "O1",
      makingAmount := some 50000000, inputMint := some SOL_MINT }
    { publicKey := "SRV" } ["TIP1", "TIP2"] "TIP2"
    { payerKey := "USR", recentBlockhash := "UBH",
      instructions := [], signatures := ["usersig"] }
    "usersig" "uuid-1" rfl rfl rfl rfl rfl rfl rfl rfl rfl

/-- C10: on the creation path a falsy `makingAmount` — absent or explicitly
`0` — is replaced by the default 50000000, and an absent `inputMint` is
replaced by the native mint; consequently such a request produces a fee
transfer of 500000 base units, not a zero fee. -/
theorem falsy_making_amount_defaults (env : ServerEnv)
    (req : SubmitJitoBundle.Request) (kp : Keypair)
    (hm : req.makingAmount = none ∨ req.makingAmount = some 0)
    (hi : req.inputMint = none) :
    SubmitJitoBundle.makingAmountUnits req = 50000000 ∧
    SubmitJitoBundle.currentInputMint req = SOL_MINT ∧
    SubmitJitoBundle.feeTx env req kp =
      mkServerTx kp env.blockhash
        (.systemTransfer kp.publicKey feeWalletAddress 500000) := by
  have hmau : SubmitJitoBundle.makingAmountUnits req = 50000000 := by
    rw [SubmitJitoBundle.makingAmountUnits]
    rcases hm with h | h <;> rw [h] <;> rfl
  have hcur : SubmitJitoBundle.currentInputMint req = SOL_MINT := by
    rw [SubmitJitoBundle.currentInputMint, hi]
    rfl
  have hfamt : SubmitJitoBundle.feeAmountUnits req = 500000 := by
    rw [SubmitJitoBundle.feeAmountUnits, hmau]
    exact jsFloorMul001_default
  refine ⟨hmau, hcur, ?_⟩
  rw [SubmitJitoBundle.feeTx, if_pos hcur, hfamt]

/-- C10 witness: an explicit `makingAmount = 0` with no input mint still
yields the 500000-unit fee transfer. -/
theorem falsy_making_amount_defaults_witness :
    SubmitJitoBundle.makingAmountUnits
      { signedTransaction := "tx", orderId := "O1", makingAmount := some 0 } =
      50000000 ∧
    SubmitJitoBundle.currentInputMint
      { signedTransaction := "tx", orderId := "O1", makingAmount := some 0 } =
      SOL_MINT ∧
    SubmitJitoBundle.feeTx envOkBase
      { signedTransaction := "tx", orderId := "O1", makingAmount := some 0 }
      { publicKey := "SRV" } =
      mkServerTx { publicKey := "SRV" } envOkBase.blockhash
        (.systemTransfer "SRV" feeWalletAddress 500000) :=
  falsy_making_amount_defaults envOkBase
    { signedTransaction := "tx", orderId := "O1", makingAmount := some 0 }
    { publicKey := "SRV" } (Or.inr rfl) rfl

/-- C3 counterexample: at `makingAmount = 2^60 = 1152921504606846976`, an
integer a double represents exactly, the creation-path fee is
11529215046068470 while `⌊makingAmount × 0.01⌋` as exact arithmetic is
11529215046068469; the claim fails as stated over all non-negative
integers. -/
theorem fee_exact_floor_counterexample :
    SubmitJitoBundle.feeAmountUnits
      { signedTransaction := "tx", orderId := "O1",
        makingAmount := some 1152921504606846976, inputMint := some SOL_MINT } ≠
      1152921504606846976 / 100 ∧
    SubmitJitoBundle.feeAmountUnits
      { signedTransaction := "tx", orderId := "O1",
        makingAmount := some 1152921504606846976, inputMint := some SOL_MINT } =
      11529215046068470 ∧
    1152921504606846976 / 100 = 11529215046068469 := by
  have h1 : SubmitJitoBundle.feeAmountUnits
      { signedTransaction := "tx", orderId := "O1",
        makingAmount := some 1152921504606846976, inputMint := some SOL_MINT } =
      11529215046068470 := by
    rw [SubmitJitoBundle.feeAmountUnits, SubmitJitoBundle.makingAmountUnits]
    rw [show jsOrNat (some 1152921504606846976) defaultMakingAmount =
      1152921504606846976 from rfl]
    exact jsFloorMul001_pow60
  refine ⟨?_, h1, by norm_num⟩
  rw [h1]
  norm_num

/-- C3 (amended): for every non-negative integer `makingAmount` that is
nonzero (so the handler does not substitute its default) and at most `2^53`
(the contiguous range of integers a double represents exactly; larger
requests cannot arrive undistorted and the floating-point product can round
across an integer), the fee computed on the creation path equals
`⌊makingAmount × 0.01⌋` as exact arithmetic, that is `makingAmount / 100`;
in particular `makingAmount = 50000000` yields fee `500000`. -/
theorem fee_floor_one_percent (req : SubmitJitoBundle.Request) (n : ℕ)
    (hreq : req.makingAmount = some n) (hn0 : n ≠ 0) (hn : n ≤ 2 ^ 53) :
    SubmitJitoBundle.feeAmountUnits req = n / 100 := by
  rw [SubmitJitoBundle.feeAmountUnits, SubmitJitoBundle.makingAmountUnits, hreq]
  simp only [jsOrNat]
  rw [if_neg hn0]
  exact jsFloorMul001_eq_div n hn

/-- C3 witness: `makingAmount = 50000000` yields fee `50000000 / 100 =
500000`. -/
theorem fee_floor_one_percent_witness :
    SubmitJitoBundle.feeAmountUnits
      { signedTransaction := "tx", orderId := "O1",
        makingAmount := some 50000000 } = 50000000 / 100 ∧
    50000000 / 100 = 500000 :=
  ⟨fee_floor_one_percent
    { signedTransaction := "tx", orderId := "O1", makingAmount := some 50000000 }
    50000000 rfl (by norm_num) (by norm_num), by norm_num⟩

end JupLimits
